import Mathlib

/-!
Verification development for the product-scraper pipeline (src/scraper.py).

The embedding models:
  - JSON-LD values (as produced by Python json.loads) as the inductive Json;
  - Python runtime errors absorbed by the try/except blocks as Except PyErr;
  - a rendered page as its navigation outcome plus the json.loads outcome of
    each script[type="application/ld+json"] block, in document order;
  - sitemap XML documents as lists of tags with a name and a text payload.
-/

/-- A JSON value, as produced by json.loads on a structured-data block. -/
inductive Json where
  | null
  | bool (b : Bool)
  | num (n : Int)
  | str (s : String)
  | arr (xs : List Json)
  | obj (kvs : List (String × Json))

/-- The Python runtime errors that the except-blocks of scraper.py can absorb. -/
inductive PyErr where
  | attributeError
  | indexError
  | typeError
  | parseError
deriving DecidableEq

/-- List-of-chars test: pat occurs at the head of l. -/
def startsList : List Char → List Char → Bool
  | [], _ => true
  | _ :: _, [] => false
  | p :: ps, c :: cs => p == c && startsList ps cs

/-- List-of-chars substring occurrence test. -/
def subList (pat : List Char) : List Char → Bool
  | [] => pat.isEmpty
  | c :: cs => startsList pat (c :: cs) || subList pat cs

/-- Python substring containment: pat in s (for strings). -/
def strContainsSub (s pat : String) : Bool :=
  subList pat.data s.data

/-- Python dict lookup semantics for a JSON object: the last binding of a
duplicated key wins, as in json.loads. -/
def dictLookup (kvs : List (String × Json)) (k : String) : Option Json :=
  kvs.foldl (fun acc kv => if kv.1 == k then some kv.2 else acc) none

/-- Python item.get(key, default): AttributeError on a non-dict receiver. -/
def pyGet (j : Json) (key : String) (dflt : Json) : Except PyErr Json :=
  match j with
  | Json.obj kvs => Except.ok ((dictLookup kvs key).getD dflt)
  | _ => Except.error PyErr.attributeError

/-- Python truthiness of a JSON value (if offers: ...). -/
def Json.truthy : Json → Bool
  | Json.null => false
  | Json.bool b => b
  | Json.num n => n != 0
  | Json.str s => s != ""
  | Json.arr xs => !xs.isEmpty
  | Json.obj kvs => !kvs.isEmpty

/-- Is this value a JSON object (a Python dict)? -/
def Json.isObj : Json → Bool
  | Json.obj _ => true
  | _ => false

/-- Python needle in container, for a string needle: substring test on
strings, element equality on lists, key containment on dicts, TypeError on
anything else. -/
def pyInStr (needle : String) : Json → Except PyErr Bool
  | Json.str s => Except.ok (strContainsSub s needle)
  | Json.arr xs => Except.ok (xs.any fun j =>
      match j with
      | Json.str a => a == needle
      | _ => false)
  | Json.obj kvs => Except.ok (kvs.any fun kv => kv.1 == needle)
  | _ => Except.error PyErr.typeError

/-- Python s.replace with a one-character pattern, as in
description.replace with a newline replaced by a space. -/
def replaceNewlines (s : String) : String :=
  String.mk (s.data.map fun c => if c == '\n' then ' ' else c)

/-- Python s.strip(): drop leading and trailing whitespace. -/
def pyStrip (s : String) : String :=
  String.mk (((s.data.dropWhile Char.isWhitespace).reverse.dropWhile
    Char.isWhitespace).reverse)

/-- The record dict built by scrape_product_page (lines 112-120): the url key
holds the Python string url, description holds the cleaned string, every other
value is whatever JSON value was extracted. -/
structure ProductRecord where
  name : Json
  url : String
  price : Json
  price_currency : Json
  sku : Json
  availability : Json
  description : String

/-- Availability cleanup (scraper.py lines 104-110). -/
def normalizeAvailability (raw : Json) : Except PyErr Json := do
  let hin ← pyInStr "InStock" raw
  if hin then
    return Json.str "In Stock"
  else
    let hout ← pyInStr "OutOfStock" raw
    if hout then
      return Json.str "Out of Stock"
    else
      return raw

/-- Field extraction from the Product JSON-LD item (scraper.py lines 86-120):
name, sku, description with defaults, offers narrowed from list to first
element (IndexError on an empty list), then price, priceCurrency and
availability when offers is truthy. -/
def extractProduct (url : String) (item : Json) : Except PyErr ProductRecord := do
  let name ← pyGet item "name" (Json.str "N/A")
  let sku ← pyGet item "sku" (Json.str "N/A")
  let descRaw ← pyGet item "description" (Json.str "N/A")
  let description ←
    match descRaw with
    | Json.str s => Except.ok (pyStrip (replaceNewlines s))
    | _ => Except.error PyErr.attributeError
  let offersRaw ← pyGet item "offers" Json.null
  let offers ←
    match offersRaw with
    | Json.arr [] => Except.error PyErr.indexError
    | Json.arr (o :: _) => Except.ok o
    | j => Except.ok j
  if offers.truthy then
    let price ← pyGet offers "price" (Json.str "N/A")
    let price_currency ← pyGet offers "priceCurrency" (Json.str "N/A")
    let rawAvail ← pyGet offers "availability" (Json.str "N/A")
    let availability ← normalizeAvailability rawAvail
    return { name := name, url := url, price := price,
             price_currency := price_currency, sku := sku,
             availability := availability, description := description }
  else
    return { name := name, url := url, price := Json.str "N/A",
             price_currency := Json.str "N/A", sku := sku,
             availability := Json.str "N/A", description := description }

/-- The items scanned inside one parsed block: the list itself when the block
is a JSON array, else the single value (line 81). -/
def jsonItems (d : Json) : List Json :=
  match d with
  | Json.arr xs => xs
  | j => [j]

/-- The test item.get with the at-type key compared to the Product string
(line 84); AttributeError on non-dict items. -/
def isProductType (item : Json) : Except PyErr Bool := do
  let t ← pyGet item "@type" Json.null
  match t with
  | Json.str s => return s == "Product"
  | _ => return false

/-- The inner loop over the items of one block (lines 83-120). -/
def scanItems (url : String) : List Json → Except PyErr (Option ProductRecord)
  | [] => Except.ok none
  | item :: rest => do
    let isProd ← isProductType item
    if isProd then
      let r ← extractProduct url item
      return some r
    else
      scanItems url rest

/-- The outer loop over the script blocks (lines 75-120); a failed json.loads
raises and is only caught by the enclosing except. -/
def scrapeBlocks (url : String) : List (Except String Json) → Except PyErr (Option ProductRecord)
  | [] => Except.ok none
  | b :: rest =>
    match b with
    | Except.error _ => Except.error PyErr.parseError
    | Except.ok data => do
      let r ← scanItems url (jsonItems data)
      match r with
      | some rcd => return some rcd
      | none => scrapeBlocks url rest

/-- A rendered page: the outcome of page.goto, and the json.loads outcome of
each ld+json script block in document order. -/
structure Page where
  nav : Except String Unit
  scripts : List (Except String Json)

/-- scrape_product_page (scraper.py lines 54-127): a navigation error yields
none; an empty block list yields none; any Python error raised while scanning
blocks is absorbed and yields none; falling through the loop yields none. -/
def scrape_product_page (page : Page) (url : String) : Option ProductRecord :=
  match page.nav with
  | Except.error _ => none
  | Except.ok _ =>
    if page.scripts.isEmpty then none
    else
      match scrapeBlocks url page.scripts with
      | Except.ok r => r
      | Except.error _ => none

/-- The per-URL batch loop of main (lines 162-166): scrape each link with the
shared page, appending each non-null record. -/
def runBatch (env : String → Page) (links : List String) : List ProductRecord :=
  links.foldl (fun acc link =>
    match scrape_product_page (env link) link with
    | some d => acc ++ [d]
    | none => acc) []

/-- Python list slicing l[:n] (line 153): nonnegative n keeps the first n
elements; negative n drops the last n elements. -/
def pySliceTo {α : Type} (l : List α) (n : Int) : List α :=
  l.take (if 0 ≤ n then n.toNat else ((l.length : Int) + n).toNat)

/-- An XML tag as BeautifulSoup exposes it here: a tag name and its text. -/
structure XmlTag where
  name : String
  text : String

/-- soup.find_all over a flat document: the tags with the given name, in
document order. -/
def find_all (doc : List XmlTag) (tag : String) : List XmlTag :=
  doc.filter (fun t => t.name == tag)

/-- get_product_sitemap_urls (scraper.py lines 17-30): on a fetch error return
the empty list, else keep the text of each loc tag whose text contains the
sitemap_products marker, in document order. -/
def get_product_sitemap_urls (resp : Except String (List XmlTag)) : List String :=
  match resp with
  | Except.error _ => []
  | Except.ok doc =>
    ((find_all doc "loc").filter
      (fun l => strContainsSub l.text "sitemap_products")).map XmlTag.text

/-- One url element of a child sitemap: its child tags in document order. -/
structure UrlEntry where
  children : List XmlTag

/-- tag.find: the first child with the given name, or none. -/
def findTag (e : UrlEntry) (nm : String) : Option XmlTag :=
  e.children.find? (fun t => t.name == nm)

/-- get_all_product_links_from_sitemaps (scraper.py lines 32-50): each child
sitemap is fetched independently; a fetch error is caught and the sitemap
skipped; from a fetched sitemap, each url entry whose first loc child contains
the products path marker appends that text. -/
def get_all_product_links_from_sitemaps
    (results : List (Except String (List UrlEntry))) : List String :=
  results.foldl (fun acc r =>
    match r with
    | Except.error _ => acc
    | Except.ok entries =>
      entries.foldl (fun acc2 tag =>
        match findTag tag "loc" with
        | some loc_tag =>
          if strContainsSub loc_tag.text "/products/" then acc2 ++ [loc_tag.text]
          else acc2
        | none => acc2) acc) []

/-- The contribution of a single url entry to the collected links: its first
loc child's text when that text contains the products path marker. -/
def entryLink (e : UrlEntry) : Option String :=
  match findTag e "loc" with
  | some loc_tag =>
    if strContainsSub loc_tag.text "/products/" then some loc_tag.text else none
  | none => none

/-- The CSV header of main (line 180). -/
def fieldnames : List String :=
  ["name", "url", "price", "price_currency", "sku", "availability", "description"]

/-- The record dict as a key-value row, keys in construction order
(lines 112-120). -/
def toRow (r : ProductRecord) : List (String × Json) :=
  [("name", r.name), ("url", Json.str r.url), ("price", r.price),
   ("price_currency", r.price_currency), ("sku", r.sku),
   ("availability", r.availability), ("description", Json.str r.description)]

/-- Boolean form of the Product test for a scanned item: a dict whose at-type
value is the Product string. -/
def isProductB (item : Json) : Bool :=
  match item with
  | Json.obj kvs =>
    match dictLookup kvs "@type" with
    | some (Json.str s) => s == "Product"
    | _ => false
  | _ => false

/-- All scanned items of all blocks are JSON objects (Python dicts). -/
def allItemsAreObjects (blocks : List Json) : Bool :=
  blocks.all fun d => (jsonItems d).all Json.isObj

/-- The first item with Product type, scanning blocks in document order and
items within a block in array order. -/
def firstProductItem (blocks : List Json) : Option Json :=
  ((blocks.map jsonItems).flatten).find? isProductB

/-- Modelled from the spec: the DOM-selector fallback extraction strategy of
section 4.3 is not present in src/ (the source file only implements the
structured-data strategy); this models the spec's price resolution order for
that strategy. Inputs are the text of the sale-price, compare-at-price and
regular-price elements when present; output is the pair of the resolved price
and compare-at-price fields, with the unknown sentinel for absent values. -/
def dom_price_resolution (sale compareAt regular : Option String) :
    String × String :=
  match sale with
  | some s => (s, match compareAt with | some c => c | none => "unknown")
  | none =>
    match regular with
    | some r => (r, "unknown")
    | none =>
      match compareAt with
      | some c => (c, "unknown")
      | none => ("unknown", "unknown")

example : pySliceTo ["a", "b", "c"] 2 = ["a", "b"] := by decide
example : pySliceTo ["a", "b", "c"] (-1) = ["a", "b"] := by decide
example : pySliceTo ["a", "b"] (-5) = [] := by decide
example : strContainsSub "https://schema.org/InStock" "InStock" = true := by decide
example : strContainsSub "oops" "InStock" = false := by decide
example : pyStrip (replaceNewlines " a\nb ") = "a b" := by decide

/-! ## Helper lemmas -/

lemma map_filter_comm {α β : Type} (f : α → β) (p : β → Bool) (l : List α) :
    (l.filter fun a => p (f a)).map f = (l.map f).filter p := by
  induction l with
  | nil => rfl
  | cons a as ih =>
    by_cases h : p (f a) = true <;> simp [h, ih]

lemma exbind_ok {ε α β : Type} (a : α) (f : α → Except ε β) :
    (Except.ok a >>= f) = f a := rfl

lemma exbind_err {ε α β : Type} (e : ε) (f : α → Except ε β) :
    ((Except.error e : Except ε α) >>= f) = Except.error e := rfl

lemma exbind_eq_ok {ε α β : Type} {x : Except ε α} {f : α → Except ε β} {b : β}
    (h : x >>= f = Except.ok b) : ∃ a, x = Except.ok a ∧ f a = Except.ok b := by
  cases x with
  | error e =>
    rw [exbind_err] at h
    exact absurd h (by simp)
  | ok a =>
    rw [exbind_ok] at h
    exact ⟨a, rfl, h⟩

/-! ## Claim theorems -/

/-- C2: the availability of the emitted record is the In Stock string when the
raw availability contains the InStock substring, else Out of Stock when it
contains OutOfStock, else the raw string unchanged; and the concrete Product
block with offers price 1999, currency PKR and an InStock availability yields
a record with price 1999, currency PKR and availability In Stock. -/
theorem availability_mapping_and_example :
    (∀ s : String,
      normalizeAvailability (Json.str s) =
        Except.ok (Json.str
          (if strContainsSub s "InStock" then "In Stock"
           else if strContainsSub s "OutOfStock" then "Out of Stock"
           else s))) ∧
    scrape_product_page
      { nav := Except.ok (),
        scripts := [Except.ok (Json.obj
          [("@type", Json.str "Product"),
           ("offers", Json.obj
             [("price", Json.str "1999"),
              ("priceCurrency", Json.str "PKR"),
              ("availability", Json.str "http://schema.org/InStock")])])] } "u"
      = some { name := Json.str "N/A", url := "u", price := Json.str "1999",
               price_currency := Json.str "PKR", sku := Json.str "N/A",
               availability := Json.str "In Stock", description := "N/A" } := by
  constructor
  · intro s
    by_cases h1 : strContainsSub s "InStock" = true
    · simp only [normalizeAvailability, pyInStr, h1]
      rfl
    · simp only [Bool.not_eq_true] at h1
      by_cases h2 : strContainsSub s "OutOfStock" = true
      · simp only [normalizeAvailability, pyInStr, h1, h2]
        rfl
      · simp only [Bool.not_eq_true] at h2
        simp only [normalizeAvailability, pyInStr, h1, h2]
        rfl
  · rfl

/-- C3 counterexample: with a maximum-items value of -1 and two discovered
links, the slice submits one link (the first), which is not min(-1, 2) links. -/
theorem slice_negative_counterexample :
    pySliceTo ["a", "b"] (-1 : Int) = ["a"] ∧
    ¬ (((pySliceTo ["a", "b"] (-1 : Int)).length : Int) = min (-1 : Int) 2) := by
  constructor
  · decide
  · decide

/-- C3 (amended): for every nonnegative maximum-items value N, exactly
min(N, M) of the M discovered links are submitted, and they are the first
min(N, M) links in discovery order; a negative N instead drops the last N
links, following the slice semantics. -/
theorem slice_nonneg_first_min (N : Int) (links : List String) (h : 0 ≤ N) :
    pySliceTo links N = links.take (min N.toNat links.length) ∧
    (pySliceTo links N).length = min N.toNat links.length := by
  have hslice : pySliceTo links N = links.take N.toNat := by
    simp [pySliceTo, h]
  constructor
  · rw [hslice]
    rcases Nat.le_total N.toNat links.length with hle | hle
    · rw [Nat.min_eq_left hle]
    · rw [Nat.min_eq_right hle, List.take_of_length_le hle, List.take_length]
  · rw [hslice, List.length_take]

/-- C3 witness: the amended slice theorem at N = 2 over three links. -/
theorem slice_nonneg_first_min_witness :
    pySliceTo ["a", "b", "c"] (2 : Int) =
      List.take (min (Int.toNat 2) 3) ["a", "b", "c"] ∧
    (pySliceTo ["a", "b", "c"] (2 : Int)).length = min (Int.toNat 2) 3 :=
  slice_nonneg_first_min 2 ["a", "b", "c"] (by decide)

/-- C4 counterexample: a Product item with every extractable field missing
yields a record whose fields carry the sentinel string N/A, which is not the
string unknown. -/
theorem sentinel_is_not_unknown :
    scrape_product_page
      { nav := Except.ok (),
        scripts := [Except.ok (Json.obj [("@type", Json.str "Product")])] } "u"
      = some { name := Json.str "N/A", url := "u", price := Json.str "N/A",
               price_currency := Json.str "N/A", sku := Json.str "N/A",
               availability := Json.str "N/A", description := "N/A" } ∧
    ("N/A" : String) ≠ "unknown" := by
  constructor
  · rfl
  · decide

/-- C4 (amended): each field other than url that could not be extracted takes
the fixed sentinel string N/A rather than being absent: for every record the
extraction step emits, a missing name, sku or description independently yields
the sentinel in that field, missing offers yield the sentinel in price,
currency and availability, and an offers object (or first offer of a list)
missing price, priceCurrency or availability yields the sentinel in the
corresponding field, while the record still carries every field. -/
theorem missing_fields_take_sentinel (url : String) (kvs : List (String × Json))
    (r : ProductRecord)
    (hr : extractProduct url (Json.obj kvs) = Except.ok r) :
    r.url = url ∧
    (dictLookup kvs "name" = none → r.name = Json.str "N/A") ∧
    (dictLookup kvs "sku" = none → r.sku = Json.str "N/A") ∧
    (dictLookup kvs "description" = none → r.description = "N/A") ∧
    (dictLookup kvs "offers" = none →
      r.price = Json.str "N/A" ∧ r.price_currency = Json.str "N/A" ∧
      r.availability = Json.str "N/A") ∧
    (∀ okvs : List (String × Json),
      dictLookup kvs "offers" = some (Json.obj okvs) →
      (dictLookup okvs "price" = none → r.price = Json.str "N/A") ∧
      (dictLookup okvs "priceCurrency" = none → r.price_currency = Json.str "N/A") ∧
      (dictLookup okvs "availability" = none → r.availability = Json.str "N/A")) ∧
    (∀ (okvs : List (String × Json)) (rest : List Json),
      dictLookup kvs "offers" = some (Json.arr (Json.obj okvs :: rest)) →
      (dictLookup okvs "price" = none → r.price = Json.str "N/A") ∧
      (dictLookup okvs "priceCurrency" = none → r.price_currency = Json.str "N/A") ∧
      (dictLookup okvs "availability" = none → r.availability = Json.str "N/A")) := by
  unfold extractProduct at hr
  obtain ⟨A, hA, hr⟩ := exbind_eq_ok hr
  obtain ⟨B, hB, hr⟩ := exbind_eq_ok hr
  obtain ⟨DR, hDR, hr⟩ := exbind_eq_ok hr
  simp only [pyGet, Except.ok.injEq] at hA hB hDR
  subst hA
  subst hB
  subst hDR
  simp only [exbind_ok, exbind_err] at hr
  split at hr
  case h_2 => exact absurd hr (by simp)
  rename_i s heqD
  obtain ⟨OR, hOR, hr⟩ := exbind_eq_ok hr
  simp only [pyGet, Except.ok.injEq] at hOR
  subst hOR
  split at hr
  case h_1 => exact absurd hr (by simp)
  case h_2 =>
    rename_i o tail heqO
    split at hr
    · rename_i htr
      obtain ⟨P, hP, hr⟩ := exbind_eq_ok hr
      obtain ⟨C, hC, hr⟩ := exbind_eq_ok hr
      obtain ⟨R, hRw, hr⟩ := exbind_eq_ok hr
      obtain ⟨Av, hAv, hr⟩ := exbind_eq_ok hr
      obtain rfl := Except.ok.inj hr
      refine ⟨rfl, ?_, ?_, ?_, ?_, ?_, ?_⟩
      · intro hn
        simp [hn]
      · intro hs0
        simp [hs0]
      · intro h0
        rw [h0] at heqD
        simp at heqD
        subst heqD
        show pyStrip (replaceNewlines "N/A") = "N/A"
        decide
      · intro h0
        rw [h0] at heqO
        simp at heqO
      · intro okvs h0
        rw [h0] at heqO
        simp at heqO
      · intro okvs rest h0
        rw [h0] at heqO
        simp at heqO
        obtain ⟨h1, h2⟩ := heqO
        subst h1
        simp only [pyGet, Except.ok.injEq] at hP hC hRw
        refine ⟨?_, ?_, ?_⟩
        · intro hp0
          rw [hp0] at hP
          simp at hP
          exact hP.symm
        · intro hc0
          rw [hc0] at hC
          simp at hC
          exact hC.symm
        · intro ha0
          rw [ha0] at hRw
          simp at hRw
          have hR2 : R = Json.str "N/A" := by exact hRw.symm
          rw [hR2] at hAv
          have hAv2 : Json.str "N/A" = Av :=
            Except.ok.inj
              ((show Except.ok (Json.str "N/A")
                  = normalizeAvailability (Json.str "N/A") from rfl).trans hAv)
          exact hAv2.symm
    · rename_i htr
      obtain rfl := Except.ok.inj hr
      refine ⟨rfl, ?_, ?_, ?_, ?_, ?_, ?_⟩
      · intro hn
        simp [hn]
      · intro hs0
        simp [hs0]
      · intro h0
        rw [h0] at heqD
        simp at heqD
        subst heqD
        show pyStrip (replaceNewlines "N/A") = "N/A"
        decide
      · intro h0
        exact ⟨rfl, rfl, rfl⟩
      · intro okvs h0
        exact ⟨fun _ => rfl, fun _ => rfl, fun _ => rfl⟩
      · intro okvs rest h0
        exact ⟨fun _ => rfl, fun _ => rfl, fun _ => rfl⟩
  case h_3 =>
    rename_i hne1 hne2
    split at hr
    · rename_i htr
      obtain ⟨P, hP, hr⟩ := exbind_eq_ok hr
      obtain ⟨C, hC, hr⟩ := exbind_eq_ok hr
      obtain ⟨R, hRw, hr⟩ := exbind_eq_ok hr
      obtain ⟨Av, hAv, hr⟩ := exbind_eq_ok hr
      obtain rfl := Except.ok.inj hr
      refine ⟨rfl, ?_, ?_, ?_, ?_, ?_, ?_⟩
      · intro hn
        simp [hn]
      · intro hs0
        simp [hs0]
      · intro h0
        rw [h0] at heqD
        simp at heqD
        subst heqD
        show pyStrip (replaceNewlines "N/A") = "N/A"
        decide
      · intro h0
        rw [h0] at hP
        simp [pyGet] at hP
      · intro okvs h0
        rw [h0] at hP hC hRw
        simp only [Option.getD_some, pyGet, Except.ok.injEq] at hP hC hRw
        refine ⟨?_, ?_, ?_⟩
        · intro hp0
          rw [hp0] at hP
          simp at hP
          exact hP.symm
        · intro hc0
          rw [hc0] at hC
          simp at hC
          exact hC.symm
        · intro ha0
          rw [ha0] at hRw
          simp at hRw
          have hR2 : R = Json.str "N/A" := by exact hRw.symm
          rw [hR2] at hAv
          have hAv2 : Json.str "N/A" = Av :=
            Except.ok.inj
              ((show Except.ok (Json.str "N/A")
                  = normalizeAvailability (Json.str "N/A") from rfl).trans hAv)
          exact hAv2.symm
      · intro okvs rest h0
        exact (hne2 (Json.obj okvs) rest (by simp [h0])).elim
    · rename_i htr
      obtain rfl := Except.ok.inj hr
      refine ⟨rfl, ?_, ?_, ?_, ?_, ?_, ?_⟩
      · intro hn
        simp [hn]
      · intro hs0
        simp [hs0]
      · intro h0
        rw [h0] at heqD
        simp at heqD
        subst heqD
        show pyStrip (replaceNewlines "N/A") = "N/A"
        decide
      · intro h0
        exact ⟨rfl, rfl, rfl⟩
      · intro okvs h0
        exact ⟨fun _ => rfl, fun _ => rfl, fun _ => rfl⟩
      · intro okvs rest h0
        exact ⟨fun _ => rfl, fun _ => rfl, fun _ => rfl⟩

/-- C4 witness: the amended sentinel theorem at a Product item whose sku and
description are missing and whose offers object lacks priceCurrency and
availability, while name and price are present. -/
theorem missing_fields_take_sentinel_witness :
    (({ name := Json.str "Widget", url := "u", price := Json.str "5",
        price_currency := Json.str "N/A", sku := Json.str "N/A",
        availability := Json.str "N/A", description := "N/A" } : ProductRecord).sku
      = Json.str "N/A") ∧
    (({ name := Json.str "Widget", url := "u", price := Json.str "5",
        price_currency := Json.str "N/A", sku := Json.str "N/A",
        availability := Json.str "N/A", description := "N/A" } : ProductRecord).description
      = "N/A") ∧
    (({ name := Json.str "Widget", url := "u", price := Json.str "5",
        price_currency := Json.str "N/A", sku := Json.str "N/A",
        availability := Json.str "N/A", description := "N/A" } : ProductRecord).price_currency
      = Json.str "N/A") ∧
    (({ name := Json.str "Widget", url := "u", price := Json.str "5",
        price_currency := Json.str "N/A", sku := Json.str "N/A",
        availability := Json.str "N/A", description := "N/A" } : ProductRecord).availability
      = Json.str "N/A") := by
  have h := missing_fields_take_sentinel "u"
    [("@type", Json.str "Product"), ("name", Json.str "Widget"),
     ("offers", Json.obj [("price", Json.str "5")])]
    { name := Json.str "Widget", url := "u", price := Json.str "5",
      price_currency := Json.str "N/A", sku := Json.str "N/A",
      availability := Json.str "N/A", description := "N/A" } rfl
  have h6 := h.2.2.2.2.2.1 [("price", Json.str "5")] rfl
  exact ⟨h.2.2.1 rfl, h.2.2.2.1 rfl, h6.2.1 rfl, h6.2.2 rfl⟩

/-- C7: every record emitted by scrape_product_page carries exactly the field
set of the fixed output header, in order, with no extra and no missing
fields. -/
theorem emitted_record_matches_header (page : Page) (url : String)
    (r : ProductRecord) (_h : scrape_product_page page url = some r) :
    (toRow r).map Prod.fst = fieldnames := by
  simp [toRow, fieldnames]

/-- C7 witness: the header theorem at a concrete page whose extraction emits a
record. -/
theorem emitted_record_matches_header_witness :
    (toRow { name := Json.str "N/A", url := "u", price := Json.str "N/A",
             price_currency := Json.str "N/A", sku := Json.str "N/A",
             availability := Json.str "N/A", description := "N/A" }).map Prod.fst
      = fieldnames :=
  emitted_record_matches_header
    { nav := Except.ok (),
      scripts := [Except.ok (Json.obj [("@type", Json.str "Product")])] } "u"
    _ rfl

/-- C5: the sitemap resolver returns exactly the loc texts containing the
sitemap_products marker in document order, returns the empty list when no
entry matches, and returns the empty list on a fetch error instead of
raising. -/
theorem resolver_exact :
    (∀ doc : List XmlTag,
      get_product_sitemap_urls (Except.ok doc) =
        ((find_all doc "loc").map XmlTag.text).filter
          (fun t => strContainsSub t "sitemap_products")) ∧
    (∀ doc : List XmlTag,
      (∀ l ∈ find_all doc "loc",
        strContainsSub l.text "sitemap_products" = false) →
      get_product_sitemap_urls (Except.ok doc) = []) ∧
    (∀ e : String, get_product_sitemap_urls (Except.error e) = []) := by
  have hbase : ∀ doc : List XmlTag,
      get_product_sitemap_urls (Except.ok doc) =
        ((find_all doc "loc").map XmlTag.text).filter
          (fun t => strContainsSub t "sitemap_products") := by
    intro doc
    simp only [get_product_sitemap_urls]
    exact map_filter_comm XmlTag.text (fun t => strContainsSub t "sitemap_products") _
  refine ⟨hbase, ?_, fun _ => rfl⟩
  intro doc hnone
  rw [hbase doc]
  rw [List.filter_eq_nil_iff]
  intro t ht
  rcases List.mem_map.mp ht with ⟨l, hl, rfl⟩
  simp [hnone l hl]

/-- C5 witness: the resolver theorem at a failed fetch and at an index whose
single loc entry does not match the marker. -/
theorem resolver_exact_witness :
    get_product_sitemap_urls (Except.error "connection refused") = [] ∧
    get_product_sitemap_urls
      (Except.ok [{ name := "loc", text := "https://x/sitemap_other.xml" }]) = [] :=
  ⟨resolver_exact.2.2 "connection refused",
   resolver_exact.2.1 [{ name := "loc", text := "https://x/sitemap_other.xml" }]
     (by decide)⟩

lemma collect_inner (entries : List UrlEntry) (acc : List String) :
    entries.foldl (fun acc2 tag =>
      match findTag tag "loc" with
      | some loc_tag =>
        if strContainsSub loc_tag.text "/products/" then acc2 ++ [loc_tag.text]
        else acc2
      | none => acc2) acc = acc ++ entries.filterMap entryLink := by
  induction entries generalizing acc with
  | nil => simp
  | cons e es ih =>
    simp only [List.foldl_cons, List.filterMap_cons]
    cases hfe : findTag e "loc" with
    | none => simp [entryLink, hfe, ih]
    | some lt =>
      by_cases hp : strContainsSub lt.text "/products/" = true
      · simp [entryLink, hfe, hp, ih]
      · simp only [Bool.not_eq_true] at hp
        simp [entryLink, hfe, hp, ih]

lemma collect_outer (results : List (Except String (List UrlEntry)))
    (acc : List String) :
    results.foldl (fun acc r =>
      match r with
      | Except.error _ => acc
      | Except.ok entries =>
        entries.foldl (fun acc2 tag =>
          match findTag tag "loc" with
          | some loc_tag =>
            if strContainsSub loc_tag.text "/products/" then acc2 ++ [loc_tag.text]
            else acc2
          | none => acc2) acc) acc =
    acc ++ (results.map (fun r =>
      match r with
      | Except.error _ => ([] : List String)
      | Except.ok entries => entries.filterMap entryLink)).flatten := by
  induction results generalizing acc with
  | nil => simp
  | cons r rs ih =>
    cases r with
    | error e => simpa using ih acc
    | ok entries =>
      simp only [List.foldl_cons, List.map_cons, List.flatten_cons]
      rw [collect_inner, ih, List.append_assoc]

/-- C6: the link collector returns the concatenation, in sitemap order then
document order, of the products-path loc texts of the sitemaps that fetched
successfully; a failing sitemap contributes nothing and its removal leaves the
result unchanged, with no exception surfacing. -/
theorem collector_concat_and_skip
    (results : List (Except String (List UrlEntry))) :
    get_all_product_links_from_sitemaps results =
      (results.map (fun r =>
        match r with
        | Except.error _ => ([] : List String)
        | Except.ok entries => entries.filterMap entryLink)).flatten ∧
    ∀ (pre post : List (Except String (List UrlEntry))) (e : String),
      get_all_product_links_from_sitemaps (pre ++ Except.error e :: post) =
        get_all_product_links_from_sitemaps (pre ++ post) := by
  constructor
  · simpa using collect_outer results []
  · intro pre post e
    have h1 := collect_outer (pre ++ Except.error e :: post) []
    have h2 := collect_outer (pre ++ post) []
    simp only [get_all_product_links_from_sitemaps]
    rw [h1, h2]
    simp

/-- C1: the per-page extraction step never propagates an exception: a
navigation failure yields none and the batch loop simply moves on to the next
link, and any error raised while scanning the script blocks also resolves to
none. -/
theorem scrape_page_absorbs_errors (env : String → Page) (url : String)
    (rest : List String) :
    (∀ e : String, (env url).nav = Except.error e →
      scrape_product_page (env url) url = none ∧
      runBatch env (url :: rest) = runBatch env rest) ∧
    (∀ err : PyErr, scrapeBlocks url (env url).scripts = Except.error err →
      scrape_product_page (env url) url = none) := by
  constructor
  · intro e he
    have hnone : scrape_product_page (env url) url = none := by
      simp [scrape_product_page, he]
    refine ⟨hnone, ?_⟩
    simp [runBatch, hnone]
  · intro err herr
    cases hnav : (env url).nav with
    | error e => simp [scrape_product_page, hnav]
    | ok u =>
      by_cases hemp : (env url).scripts.isEmpty = true <;>
        simp [scrape_product_page, hnav, hemp, herr]

/-- C1 witness: the absorption theorem at a page whose navigation times out,
with one further link in the batch. -/
theorem scrape_page_absorbs_errors_witness :
    scrape_product_page
      ((fun _ => ({ nav := Except.error "timeout", scripts := [] } : Page)) "u")
      "u" = none ∧
    runBatch (fun _ => ({ nav := Except.error "timeout", scripts := [] } : Page))
      ["u", "v"] =
    runBatch (fun _ => ({ nav := Except.error "timeout", scripts := [] } : Page))
      ["v"] :=
  (scrape_page_absorbs_errors
    (fun _ => ({ nav := Except.error "timeout", scripts := [] } : Page))
    "u" ["v"]).1 "timeout" rfl

/-- C10: a Product item whose offers field is the empty list makes the
first-offer lookup raise IndexError, which the catch-all handler absorbs, so
the whole page resolves to none instead of a sentinel-filled record. -/
theorem empty_offers_list_yields_none (url : String)
    (kvs : List (String × Json))
    (ht : dictLookup kvs "@type" = some (Json.str "Product"))
    (hd : dictLookup kvs "description" = none ∨
          ∃ s, dictLookup kvs "description" = some (Json.str s))
    (ho : dictLookup kvs "offers" = some (Json.arr [])) :
    extractProduct url (Json.obj kvs) = Except.error PyErr.indexError ∧
    scrape_product_page
      { nav := Except.ok (), scripts := [Except.ok (Json.obj kvs)] } url
      = none := by
  have hex : extractProduct url (Json.obj kvs) = Except.error PyErr.indexError := by
    unfold extractProduct
    simp only [pyGet]
    rw [ho]
    rcases hd with hd | ⟨s, hd⟩ <;> rw [hd] <;> rfl
  refine ⟨hex, ?_⟩
  have hprod : isProductType (Json.obj kvs) = Except.ok true := by
    simp only [isProductType, pyGet, ht]
    rfl
  simp only [scrape_product_page, scrapeBlocks, jsonItems, scanItems, hprod, hex]
  rfl

/-- C10 witness: the empty-offers theorem at a Product item whose offers field
is the empty list. -/
theorem empty_offers_list_yields_none_witness :
    extractProduct "u"
      (Json.obj [("@type", Json.str "Product"), ("offers", Json.arr [])])
      = Except.error PyErr.indexError ∧
    scrape_product_page
      { nav := Except.ok (),
        scripts := [Except.ok (Json.obj
          [("@type", Json.str "Product"), ("offers", Json.arr [])])] } "u"
      = none :=
  empty_offers_list_yields_none "u"
    [("@type", Json.str "Product"), ("offers", Json.arr [])]
    rfl (Or.inl rfl) rfl

lemma bind_ok_some {ε α : Type} (e : Except ε α) :
    (e >>= fun r => Except.ok (some r)) = Except.map some e := by
  cases e <;> rfl

lemma map_some_toOption {ε α : Type} (e : Except ε α) :
    (match Except.map some e with
      | Except.ok r => r
      | Except.error _ => none) = e.toOption := by
  cases e <;> rfl

lemma isProductType_obj (kvs : List (String × Json)) :
    isProductType (Json.obj kvs) = Except.ok (isProductB (Json.obj kvs)) := by
  simp only [isProductType, pyGet, isProductB]
  cases hl : dictLookup kvs "@type" with
  | none => rfl
  | some v => cases v <;> rfl

lemma scanItems_objs (url : String) (items : List Json)
    (h : items.all Json.isObj = true) :
    scanItems url items =
      match items.find? isProductB with
      | some item => Except.map some (extractProduct url item)
      | none => Except.ok none := by
  induction items with
  | nil => rfl
  | cons item rest ih =>
    simp only [List.all_cons, Bool.and_eq_true] at h
    obtain ⟨hobj, hrest⟩ := h
    obtain ⟨kvs, rfl⟩ : ∃ kvs, item = Json.obj kvs := by
      cases item <;> simp [Json.isObj] at hobj ⊢
    rw [scanItems, isProductType_obj]
    by_cases hp : isProductB (Json.obj kvs) = true
    · simp only [hp, List.find?_cons_of_pos]
      simpa using bind_ok_some (extractProduct url (Json.obj kvs))
    · simp only [Bool.not_eq_true] at hp
      have hfind : (Json.obj kvs :: rest).find? isProductB = rest.find? isProductB :=
        List.find?_cons_of_neg _ (by simp [hp])
      rw [hfind, hp, ← ih hrest]
      rfl

lemma scrapeBlocks_objs (url : String) (blocks : List Json)
    (h : allItemsAreObjects blocks = true) :
    scrapeBlocks url (blocks.map Except.ok) =
      match firstProductItem blocks with
      | some item => Except.map some (extractProduct url item)
      | none => Except.ok none := by
  induction blocks with
  | nil => rfl
  | cons b bs ih =>
    simp only [allItemsAreObjects, List.all_cons, Bool.and_eq_true] at h
    obtain ⟨hb, hbs⟩ := h
    rw [List.map_cons, scrapeBlocks, scanItems_objs url (jsonItems b) hb]
    have hfirst : firstProductItem (b :: bs) =
        match (jsonItems b).find? isProductB with
        | some item => some item
        | none => firstProductItem bs := by
      simp only [firstProductItem, List.map_cons, List.flatten_cons,
        List.find?_append]
      cases (jsonItems b).find? isProductB <;> simp [Option.orElse]
    rw [hfirst]
    cases hf : (jsonItems b).find? isProductB with
    | some item =>
      cases hext : extractProduct url item <;>
        simp only [hext, Except.map] <;> rfl
    | none =>
      simpa using ih hbs

/-- C9 counterexample: a page whose first script block parses to the JSON
string x and whose second block holds a Product object yields none — the
AttributeError from calling get on the string is absorbed by the catch-all
handler — even though the first (and only) Product object is present and its
own extraction succeeds, so the scan does not return the record built from the
first Product object encountered. -/
theorem nonobject_item_aborts_scan :
    scrape_product_page
      { nav := Except.ok (),
        scripts := [Except.ok (Json.str "x"),
                    Except.ok (Json.obj [("@type", Json.str "Product"),
                                         ("name", Json.str "first")])] } "u"
      = none ∧
    firstProductItem [Json.str "x",
        Json.obj [("@type", Json.str "Product"), ("name", Json.str "first")]] =
      some (Json.obj [("@type", Json.str "Product"), ("name", Json.str "first")]) ∧
    extractProduct "u"
      (Json.obj [("@type", Json.str "Product"), ("name", Json.str "first")]) =
      Except.ok { name := Json.str "first", url := "u", price := Json.str "N/A",
                  price_currency := Json.str "N/A", sku := Json.str "N/A",
                  availability := Json.str "N/A", description := "N/A" } :=
  ⟨rfl, rfl, rfl⟩

/-- C9 (amended): with every scanned item a JSON object, extraction returns
the record built from the first Product object encountered, scanning blocks in
document order and items within a block in array order; later blocks and
objects are ignored, and the page resolves to none when that first Product
item fails to extract or no Product item exists. -/
theorem first_product_object_wins (url : String) (blocks : List Json)
    (hobj : allItemsAreObjects blocks = true) :
    scrape_product_page
      { nav := Except.ok (), scripts := blocks.map Except.ok } url =
      match firstProductItem blocks with
      | some item => (extractProduct url item).toOption
      | none => none := by
  cases blocks with
  | nil => rfl
  | cons b bs =>
    have hblocks := scrapeBlocks_objs url (b :: bs) hobj
    simp only [scrape_product_page, List.map_cons, List.isEmpty_cons]
    rw [← List.map_cons, hblocks]
    cases hf : firstProductItem (b :: bs) with
    | none => rfl
    | some item =>
      cases hext : extractProduct url item <;>
        simp [hext, Except.map, Except.toOption]

/-- C9 witness: the first-Product theorem at a page holding two Product
blocks; the record carries the name of the first one. -/
theorem first_product_object_wins_witness :
    scrape_product_page
      { nav := Except.ok (),
        scripts := [Json.obj [("@type", Json.str "Product"),
                              ("name", Json.str "first")],
                    Json.obj [("@type", Json.str "Product"),
                              ("name", Json.str "second")]].map Except.ok } "u" =
      match firstProductItem
          [Json.obj [("@type", Json.str "Product"), ("name", Json.str "first")],
           Json.obj [("@type", Json.str "Product"), ("name", Json.str "second")]] with
      | some item => (extractProduct "u" item).toOption
      | none => none :=
  first_product_object_wins "u"
    [Json.obj [("@type", Json.str "Product"), ("name", Json.str "first")],
     Json.obj [("@type", Json.str "Product"), ("name", Json.str "second")]]
    (by decide)

/-- C8: the spec-modelled DOM-fallback price resolution: a sale price 800 with
a compare-at 1200 yields price 800 and compare-at 1200; no sale and no regular
price with a compare-at 500 yields price 500 and compare-at unknown. -/
theorem dom_price_resolution_examples :
    dom_price_resolution (some "800") (some "1200") none = ("800", "1200") ∧
    dom_price_resolution none (some "500") none = ("500", "unknown") :=
  ⟨rfl, rfl⟩
